import Mathlib

/-!
Shallow embedding of the windowing/pagination engine of the VirtualList
component (two source variants: `src/VirtualList.tsx`, the main variant,
and the legacy variant).  Pure fragments of the TypeScript are translated
into executable Lean definitions; the asynchronous controller is modelled
as explicit state passing over trigger/resolve events.
-/

namespace VirtualList

/-- A page: opaque content with a stable identifier and a measured height
(`offsetHeight` of the rendered element). -/
structure PageData where
  id : Nat
  height : Nat
deriving DecidableEq, Repr

/-- `_.take(array, n)` from lodash: the first `n` elements (whole array if
`n` exceeds the length). -/
def lodashTake (l : List PageData) (n : Nat) : List PageData :=
  l.take n

/-- `_.takeRight(array, n)` from lodash: the last `n` elements (whole array
if `n` exceeds the length). -/
def lodashTakeRight (l : List PageData) (n : Nat) : List PageData :=
  l.drop (l.length - n)

/-- The pages-window transformation of `addPage` after the host fetch
settles (`VirtualList.tsx` lines 153-169, identically lines 180-206 of the
legacy variant): `if (!page) return;` then
`[page, ..._.take(pages, maxPageBuffer)]` when scrolling up, else
`[..._.takeRight(pages, maxPageBuffer), page]`. -/
def addPageMerge (maxPageBuffer : Nat) (isScrollingUp : Bool)
    (pages : List PageData) (page : Option PageData) : List PageData :=
  match page with
  | none => pages
  | some p =>
    if isScrollingUp then
      p :: lodashTake pages maxPageBuffer
    else
      lodashTakeRight pages maxPageBuffer ++ [p]

/-- A sequence of merges performed by `addPage`, starting from a given
window.  Each operation is the direction flag together with the page the
host resolved with (`none` = dataset exhausted in that direction). -/
def runMergesFrom (maxPageBuffer : Nat) (start : List PageData)
    (ops : List (Bool × Option PageData)) : List PageData :=
  ops.foldl (fun pages op => addPageMerge maxPageBuffer op.1 pages op.2) start

/-- Merges starting from the empty window (`pages: []` in the constructor). -/
def runMerges (maxPageBuffer : Nat) (ops : List (Bool × Option PageData)) :
    List PageData :=
  runMergesFrom maxPageBuffer [] ops

/-- `IVirtualListSettings` of the main variant. -/
structure IVirtualListSettings where
  startBottomUp : Bool
  maxPageBuffer : Nat
  isPagingEnabled : Bool
  debug : Bool
deriving DecidableEq, Repr

/-- `defaultSettings` of the main variant (`VirtualList.tsx` lines 15-20). -/
def defaultSettings : IVirtualListSettings :=
  { isPagingEnabled := true
    startBottomUp := false
    maxPageBuffer := 15
    debug := false }

/-- `Partial<IVirtualListSettings>`: each field may be absent. -/
structure PartialSettings where
  startBottomUp : Option Bool
  maxPageBuffer : Option Nat
  isPagingEnabled : Option Bool
  debug : Option Bool
deriving DecidableEq, Repr

/-- The spread `{ ...defaultSettings, ...this.props.settings }` of the main
variant's constructor (line 54): a supplied field overrides the default. -/
def spreadSettings (d : IVirtualListSettings) (p : PartialSettings) :
    IVirtualListSettings :=
  { startBottomUp := p.startBottomUp.getD d.startBottomUp
    maxPageBuffer := p.maxPageBuffer.getD d.maxPageBuffer
    isPagingEnabled := p.isPagingEnabled.getD d.isPagingEnabled
    debug := p.debug.getD d.debug }

/-- `IVirtualListSettings` of the legacy variant (no `isPagingEnabled`). -/
structure ILegacySettings where
  startBottomUp : Bool
  maxPageBuffer : Nat
  debug : Bool
deriving DecidableEq, Repr

/-- `defaultSettings` of the legacy variant (lines 26-30): note
`maxPageBuffer: 10`. -/
def legacyDefaultSettings : ILegacySettings :=
  { startBottomUp := false
    maxPageBuffer := 10
    debug := false }

/-- `Partial<IVirtualListSettings>` of the legacy variant. -/
structure LegacyPartialSettings where
  startBottomUp : Option Bool
  maxPageBuffer : Option Nat
  debug : Option Bool
deriving DecidableEq, Repr

/-- The spread `{ ...defaultSettings, ...this.props.settings }` of the
legacy variant's constructor (line 65). -/
def legacySpreadSettings (d : ILegacySettings) (p : LegacyPartialSettings) :
    ILegacySettings :=
  { startBottomUp := p.startBottomUp.getD d.startBottomUp
    maxPageBuffer := p.maxPageBuffer.getD d.maxPageBuffer
    debug := p.debug.getD d.debug }

/-- `IVirtualListState` of the main variant together with the settings
fixed at construction. -/
structure IVirtualListState where
  pages : List PageData
  settings : IVirtualListSettings
  previousBufferHeight : Nat
  nextBufferHeight : Nat
  isScrollingUp : Bool
deriving DecidableEq, Repr

/-- The constructor's initial state (lines 49-62): empty window, zero
buffer heights, `isScrollingUp = settings.startBottomUp`. -/
def initialState (ps : PartialSettings) : IVirtualListState :=
  let settings := spreadSettings defaultSettings ps
  { pages := []
    previousBufferHeight := 0
    nextBufferHeight := 0
    settings := settings
    isScrollingUp := settings.startBottomUp }

/-- The continuation of `addPage` (main variant, lines 149-171) once the
host promise has settled: `if (!page) return;`, otherwise merge the page
into the window and `setState({ pages, isScrollingUp })`. -/
def addPageResolve (s : IVirtualListState) (isScrollingUp : Bool)
    (page : Option PageData) : IVirtualListState :=
  match page with
  | none => s
  | some p =>
    { s with
      pages :=
        addPageMerge s.settings.maxPageBuffer isScrollingUp s.pages (some p)
      isScrollingUp := isScrollingUp }

/-- The component state together with the bookkeeping of host fetch calls:
how many calls to `getPageBefore` / `getPageAfter` have been issued and
how many are still unresolved, per direction. -/
structure ControllerState where
  comp : IVirtualListState
  pendingBefore : Nat
  pendingAfter : Nat
  callsBefore : Nat
  callsAfter : Nat
deriving DecidableEq, Repr

/-- `addPage` (main variant, lines 150-152) begins by synchronously
invoking the host fetch for the requested direction — before any result is
inspected and with no guard on an already-pending request. -/
def issueFetch (s : ControllerState) (isScrollingUp : Bool) : ControllerState :=
  if isScrollingUp then
    { s with
      pendingBefore := s.pendingBefore + 1
      callsBefore := s.callsBefore + 1 }
  else
    { s with
      pendingAfter := s.pendingAfter + 1
      callsAfter := s.callsAfter + 1 }

/-- `handleIntersection` (main variant, lines 140-147): the direction is
chosen by which sentinel fired; the trigger fires when
`entry.intersectionRatio > 0` and paging is enabled, and then calls
`addPage`, which issues the host fetch. -/
def handleIntersection (s : ControllerState) (targetIsPreviousBuffer : Bool)
    (r : ℚ) : ControllerState :=
  let isScrollingUp := targetIsPreviousBuffer
  let isIntersecting : Bool := decide (r > 0)
  if !isIntersecting || !s.comp.settings.isPagingEnabled then s
  else issueFetch s isScrollingUp

/-- A host promise issued by `addPage` settles: the in-flight counter for
its direction drops and the rest of `addPage` (`addPageResolve`) runs on
the current component state. -/
def resolveFetch (s : ControllerState) (isScrollingUp : Bool)
    (page : Option PageData) : ControllerState :=
  let s1 :=
    if isScrollingUp then { s with pendingBefore := s.pendingBefore - 1 }
    else { s with pendingAfter := s.pendingAfter - 1 }
  { s1 with comp := addPageResolve s1.comp isScrollingUp page }

/-- A freshly mounted component with default settings and no fetch
activity. -/
def initialController : ControllerState :=
  { comp := initialState ⟨none, none, none, none⟩
    pendingBefore := 0
    pendingAfter := 0
    callsBefore := 0
    callsAfter := 0 }

/-- The element at `previousBuffer.nextElementSibling` in the rendered
tree (lines 96-105): the first page of the window, or the next buffer
itself when the window is empty.  Returns its `offsetHeight`. -/
def heightAfterPreviousBuffer (pages : List PageData)
    (nextBufferHeight : Nat) : Nat :=
  match pages with
  | [] => nextBufferHeight
  | p :: _ => p.height

/-- `adjustScrollTop` (main variant, lines 173-183), run from
`componentDidUpdate`: inside the scheduled animation frame, if the passed
flag is set the viewport's `scrollTop` becomes the snapshot value plus the
height of the element after the previous buffer; otherwise nothing is
written and the current `scrollTop` stands. -/
def adjustScrollTop (pages : List PageData) (nextBufferHeight : Nat)
    (isScrollingUp : Bool) (previousScrollTop currentScrollTop : Int) : Int :=
  if isScrollingUp then
    previousScrollTop + heightAfterPreviousBuffer pages nextBufferHeight
  else currentScrollTop

/-- Component state plus the viewport scroll offset. -/
structure ViewState where
  comp : IVirtualListState
  scrollTop : Int
deriving DecidableEq, Repr

/-- One complete update cycle for a merge of a fetched page (main
variant): `setState({ pages, isScrollingUp })` (line 170), then
`getSnapshotBeforeUpdate` captures the pre-commit `scrollTop` (lines
72-74), then `componentDidUpdate` calls
`adjustScrollTop(prevState.isScrollingUp, snapshot.scrollTop)` (lines
76-82) — note the flag comes from the state before this very update. -/
def mergeUpdate (v : ViewState) (isScrollingUp : Bool) (p : PageData) :
    ViewState :=
  let snapshotScrollTop := v.scrollTop
  let prevState := v.comp
  let newComp := addPageResolve v.comp isScrollingUp (some p)
  { comp := newComp
    scrollTop :=
      adjustScrollTop newComp.pages newComp.nextBufferHeight
        prevState.isScrollingUp snapshotScrollTop v.scrollTop }

/-- `slideRunwayInPx` (legacy variant, lines 221-226): accumulates the
delta into the runway translation `runwayY`. -/
def slideRunwayInPx (runwayY delta : Int) : Int :=
  runwayY + delta

/-- `slideRunwayToBuffer` (legacy variant, lines 213-219): after an append
merge it returns immediately; after a prepend merge it slides the runway
by minus the new first page's height plus the pruned element's height. -/
def slideRunwayToBuffer (runwayY : Int) (isGoingUp : Bool)
    (newFirstPageHeight prunedElementHeight : Nat) : Int :=
  if !isGoingUp then runwayY
  else slideRunwayInPx runwayY
    (-(newFirstPageHeight : Int) + prunedElementHeight)

/-- ASCII lower-casing of one character, as the character code. -/
def lowerCode (c : Char) : Nat :=
  if 65 ≤ c.toNat ∧ c.toNat ≤ 90 then c.toNat + 32 else c.toNat

/-- `/pat/i.test(ua)` for the literal browser patterns of `getDelta`:
case-insensitive substring containment. -/
def testIgnoreCase (pat ua : String) : Bool :=
  decide (List.IsInfix (pat.toList.map lowerCode) (ua.toList.map lowerCode))

/-- `getDelta` (legacy variant, lines 8-18): browser-sniffed wheel-delta
scaling; any user agent matching none of chrome, firefox or safari gets 0. -/
def getDelta (userAgent : String) (deltaY : Int) : Int :=
  if testIgnoreCase "chrome" userAgent then deltaY * (-3)
  else if testIgnoreCase "firefox" userAgent then deltaY * (-3)
  else if testIgnoreCase "safari" userAgent then deltaY * (-300)
  else 0

/-- The legacy variant's two-flag scroll gate (`scrollStatus`, lines
48-51). -/
structure ScrollStatus where
  canScrollUp : Bool
  canScrollDown : Bool
deriving DecidableEq, Repr

/-- The mutable instance fields consulted by `onWheel` in the legacy
variant. -/
structure LegacyRunwayState where
  scrollStatus : ScrollStatus
  runwayY : Int
deriving DecidableEq, Repr

/-- `onWheel` (legacy variant, lines 142-152): translate the wheel delta,
gate on the scroll-status flags, otherwise slide the runway. -/
def onWheel (userAgent : String) (s : LegacyRunwayState) (deltaY : Int) :
    LegacyRunwayState :=
  let delta := getDelta userAgent deltaY
  let goingUp : Bool := decide (delta ≥ 0)
  if (!s.scrollStatus.canScrollUp && goingUp) ||
      (!s.scrollStatus.canScrollDown && !goingUp) then s
  else { s with runwayY := slideRunwayInPx s.runwayY delta }

/-- Whether along `ops` every page handed over by the host carries an
identifier not already present in the window at the moment it is merged
(the code itself never deduplicates). -/
def freshIds (maxPageBuffer : Nat) (pages : List PageData) :
    List (Bool × Option PageData) → Bool
  | [] => true
  | (b, pg) :: rest =>
    (match pg with
     | none => true
     | some p => !(pages.map PageData.id).contains p.id) &&
      freshIds maxPageBuffer (addPageMerge maxPageBuffer b pages pg) rest

end VirtualList

open VirtualList

lemma addPageMerge_length_le (maxPageBuffer : Nat) (isScrollingUp : Bool)
    (pages : List PageData) (page : Option PageData)
    (h : pages.length ≤ maxPageBuffer + 1) :
    (addPageMerge maxPageBuffer isScrollingUp pages page).length ≤
      maxPageBuffer + 1 := by
  cases page with
  | none => simpa [addPageMerge] using h
  | some p =>
    cases isScrollingUp with
    | true => simp [addPageMerge, lodashTake, List.length_take]
    | false =>
      simp [addPageMerge, lodashTakeRight]
      omega

lemma runMergesFrom_length_le (maxPageBuffer : Nat)
    (ops : List (Bool × Option PageData)) (start : List PageData)
    (h : start.length ≤ maxPageBuffer + 1) :
    (runMergesFrom maxPageBuffer start ops).length ≤ maxPageBuffer + 1 := by
  induction ops generalizing start with
  | nil => simpa [runMergesFrom] using h
  | cons op rest ih =>
    simp only [runMergesFrom, List.foldl_cons] at *
    exact ih _ (addPageMerge_length_le _ _ _ _ h)

/-- C1 counterexample: with `maxPageBuffer = 1` (a positive buffer limit),
two appends from the empty window produce a window of length 2, so the
window length does exceed `maxPageBuffer`. -/
theorem c1_window_bound_counterexample :
    (runMerges 1 [(false, some ⟨1, 10⟩), (false, some ⟨2, 10⟩)]).length = 2 ∧
      ¬ (runMerges 1 [(false, some ⟨1, 10⟩),
          (false, some ⟨2, 10⟩)]).length ≤ 1 := by
  constructor
  · rfl
  · decide

/-- C1 (amended): for every `maxPageBuffer` and every sequence of
prepend/append merges performed by `addPage` starting from the empty
window, the length of the pages window never exceeds `maxPageBuffer + 1`
(the code truncates to `maxPageBuffer` pages and then inserts one more). -/
theorem c1_window_bound (maxPageBuffer : Nat)
    (ops : List (Bool × Option PageData)) :
    (runMerges maxPageBuffer ops).length ≤ maxPageBuffer + 1 :=
  runMergesFrom_length_le maxPageBuffer ops [] (by simp)

/-- C2 counterexample: with `maxPageBuffer = 2` and window `[A, B]`,
`append(C)` yields `[A, B, C]` — nothing is evicted and the result is not
the claimed `[B, C]`. -/
theorem c2_eviction_counterexample :
    addPageMerge 2 false [⟨1, 10⟩, ⟨2, 10⟩] (some ⟨3, 10⟩) =
        [⟨1, 10⟩, ⟨2, 10⟩, ⟨3, 10⟩] ∧
      addPageMerge 2 false [⟨1, 10⟩, ⟨2, 10⟩] (some ⟨3, 10⟩) ≠
        [⟨2, 10⟩, ⟨3, 10⟩] := by
  constructor
  · rfl
  · decide

/-- C2 (amended): eviction happens one page later than claimed — appending
to a window whose length equals `maxPageBuffer + 1` evicts exactly the
first page, and prepending to such a window evicts exactly the last page
(a window of length exactly `maxPageBuffer` grows without eviction, as in
the counterexample). -/
theorem c2_eviction_correctness (maxPageBuffer : Nat) (pages : List PageData)
    (p : PageData) (h : pages.length = maxPageBuffer + 1) :
    addPageMerge maxPageBuffer false pages (some p) = pages.tail ++ [p] ∧
      addPageMerge maxPageBuffer true pages (some p) = p :: pages.dropLast := by
  constructor
  · simp [addPageMerge, lodashTakeRight, h, List.drop_one]
  · simp [addPageMerge, lodashTake, List.dropLast_eq_take, h]

/-- C5 (confirmed): when the host resolves with the absence value
(`undefined`), `addPage` performs no mutation: the whole component state —
pages window, settings, buffer heights and the `isScrollingUp` flag — is
exactly unchanged. -/
theorem c5_absence_no_mutation (s : IVirtualListState) (isScrollingUp : Bool) :
    addPageResolve s isScrollingUp none = s :=
  rfl

/-- C9 counterexample: the legacy variant's constructor, given an empty
partial settings object, produces an effective `maxPageBuffer` of 10 — not
the documented default 15 — so effective settings do not always equal the
documented defaults overridden by the supplied values. -/
theorem c9_settings_defaults_counterexample :
    (legacySpreadSettings legacyDefaultSettings ⟨none, none, none⟩).maxPageBuffer
        = 10 ∧
      (legacySpreadSettings legacyDefaultSettings
          ⟨none, none, none⟩).maxPageBuffer ≠ 15 := by
  constructor
  · rfl
  · decide

/-- C9 (amended): in the main variant the effective settings equal the
documented defaults `{startBottomUp := false, maxPageBuffer := 15,
isPagingEnabled := true, debug := false}` overridden field-by-field by the
supplied values, every field optional; the legacy variant merges the same
way but over its own defaults `{startBottomUp := false, maxPageBuffer :=
10, debug := false}` and has no `isPagingEnabled` field. -/
theorem c9_settings_defaults (p : PartialSettings) (q : LegacyPartialSettings) :
    (spreadSettings defaultSettings p).startBottomUp =
        p.startBottomUp.getD false ∧
      (spreadSettings defaultSettings p).maxPageBuffer =
        p.maxPageBuffer.getD 15 ∧
      (spreadSettings defaultSettings p).isPagingEnabled =
        p.isPagingEnabled.getD true ∧
      (spreadSettings defaultSettings p).debug = p.debug.getD false ∧
      (legacySpreadSettings legacyDefaultSettings q).startBottomUp =
        q.startBottomUp.getD false ∧
      (legacySpreadSettings legacyDefaultSettings q).maxPageBuffer =
        q.maxPageBuffer.getD 10 ∧
      (legacySpreadSettings legacyDefaultSettings q).debug =
        q.debug.getD false :=
  ⟨rfl, rfl, rfl, rfl, rfl, rfl, rfl⟩

/-- Witness for `c2_eviction_correctness`: `maxPageBuffer = 1`, window
`[A, B]` of length 2: append evicts `A`, prepend evicts `B`. -/
theorem c2_eviction_correctness_witness :
    addPageMerge 1 false [⟨1, 10⟩, ⟨2, 10⟩] (some ⟨3, 10⟩) =
        [⟨2, 10⟩] ++ [⟨3, 10⟩] ∧
      addPageMerge 1 true [⟨1, 10⟩, ⟨2, 10⟩] (some ⟨3, 10⟩) =
        ⟨3, 10⟩ :: [⟨1, 10⟩] :=
  c2_eviction_correctness 1 [⟨1, 10⟩, ⟨2, 10⟩] ⟨3, 10⟩ (by decide)

/-- C3 counterexample: from a fresh mount with paging enabled, two
intersection triggers of the `previous` sentinel before the first fetch
resolves issue two `getPageBefore` calls, not the claimed one. -/
theorem c3_in_flight_counterexample :
    (handleIntersection (handleIntersection initialController true 1)
        true 1).callsBefore = 2 ∧
      (handleIntersection (handleIntersection initialController true 1)
        true 1).callsBefore ≠ 1 := by
  constructor
  · rfl
  · decide

/-- C3 (amended): `handleIntersection` has no per-direction in-flight
gate — with paging enabled, every intersecting trigger calls `addPage`,
which immediately issues a host fetch, so two sentinel triggers for the
same direction before the first fetch resolves result in exactly two
fetch calls for that direction. -/
theorem c3_no_in_flight_gate (s : ControllerState) (r1 r2 : ℚ)
    (h1 : 0 < r1) (h2 : 0 < r2)
    (hp : s.comp.settings.isPagingEnabled = true) :
    (handleIntersection (handleIntersection s true r1) true r2).callsBefore =
      s.callsBefore + 2 := by
  simp [handleIntersection, issueFetch, hp, h1, h2]

/-- Witness for `c3_no_in_flight_gate` at a fresh mount and ratio 1. -/
theorem c3_no_in_flight_gate_witness :
    (0 : ℚ) < 1 ∧ initialController.comp.settings.isPagingEnabled = true ∧
      (handleIntersection (handleIntersection initialController true 1)
          true 1).callsBefore = initialController.callsBefore + 2 :=
  ⟨by norm_num, rfl,
    c3_no_in_flight_gate initialController 1 1 (by norm_num) (by norm_num) rfl⟩

/-- C4 counterexample: a `getPageBefore` fetch resolves `undefined`
(dataset exhausted upward), yet the next `previous`-sentinel trigger
issues a second fetch call — exhaustion is not sticky. -/
theorem c4_exhaustion_counterexample :
    (handleIntersection
        (resolveFetch (handleIntersection initialController true 1) true none)
        true 1).callsBefore = 2 ∧
      (handleIntersection
        (resolveFetch (handleIntersection initialController true 1) true none)
        true 1).callsBefore ≠ 1 := by
  constructor
  · rfl
  · decide

/-- C4 (amended): an absence value does not gate its direction — the code
records no exhausted state (`addPage` merely returns early), so every
subsequent qualifying sentinel trigger for that direction issues another
host fetch call. -/
theorem c4_no_exhaustion_gate (s : ControllerState) (r : ℚ) (h : 0 < r)
    (hp : s.comp.settings.isPagingEnabled = true) :
    (handleIntersection (resolveFetch s true none) true r).callsBefore =
      s.callsBefore + 1 := by
  simp [handleIntersection, resolveFetch, addPageResolve, issueFetch, hp, h]

/-- Witness for `c4_no_exhaustion_gate` at a fresh mount and ratio 1. -/
theorem c4_no_exhaustion_gate_witness :
    (0 : ℚ) < 1 ∧ initialController.comp.settings.isPagingEnabled = true ∧
      (handleIntersection (resolveFetch initialController true none)
          true 1).callsBefore = initialController.callsBefore + 1 :=
  ⟨by norm_num, rfl, c4_no_exhaustion_gate initialController 1 (by norm_num) rfl⟩

/-- C6 (code bug): `componentDidUpdate` passes `prevState.isScrollingUp` —
the direction of the update before this one — to `adjustScrollTop`, so the
very first prepend merge after a default mount (`startBottomUp = false`,
window empty, no eviction) leaves the scroll offset at 100 instead of
changing it by the inserted page's height 10. -/
theorem c6_compensation_missing_on_first_prepend :
    (mergeUpdate ⟨initialState ⟨none, none, none, none⟩, 100⟩ true
        ⟨1, 10⟩).comp.pages = [⟨1, 10⟩] ∧
      (mergeUpdate ⟨initialState ⟨none, none, none, none⟩, 100⟩ true
        ⟨1, 10⟩).scrollTop = 100 ∧
      (100 : Int) ≠ 100 + 10 := by
  refine ⟨rfl, rfl, by decide⟩

/-- C7 (code bug): because the compensation flag comes from `prevState`,
an append merge that follows a prepend merge does get compensated — the
scroll offset moves from 100 to 110 (plus the first page's height) on the
append, where both variants are claimed to leave it unchanged. -/
theorem c7_compensation_applied_on_append :
    (mergeUpdate (mergeUpdate ⟨initialState ⟨none, none, none, none⟩, 100⟩
        true ⟨1, 10⟩) false ⟨2, 20⟩).scrollTop = 110 ∧
      (mergeUpdate ⟨initialState ⟨none, none, none, none⟩, 100⟩ true
        ⟨1, 10⟩).scrollTop = 100 ∧
      (110 : Int) ≠ 100 := by
  refine ⟨rfl, rfl, by decide⟩

/-- In the legacy variant the claimed behaviour does hold: after an append
merge `slideRunwayToBuffer` returns without touching the accumulated
runway translation. -/
lemma legacy_append_leaves_runway (runwayY : Int) (h ph : Nat) :
    slideRunwayToBuffer runwayY false h ph = runwayY :=
  rfl

/-- C10 (confirmed): on a user agent matching none of chrome, firefox or
safari, `getDelta` returns 0, and `onWheel` leaves the accumulated runway
translation `runwayY` exactly unchanged. -/
theorem c10_unknown_browser_no_scroll (userAgent : String)
    (s : LegacyRunwayState) (deltaY : Int)
    (hc : testIgnoreCase "chrome" userAgent = false)
    (hf : testIgnoreCase "firefox" userAgent = false)
    (hs : testIgnoreCase "safari" userAgent = false) :
    getDelta userAgent deltaY = 0 ∧
      (onWheel userAgent s deltaY).runwayY = s.runwayY := by
  have hd : getDelta userAgent deltaY = 0 := by
    simp [getDelta, hc, hf, hs]
  refine ⟨hd, ?_⟩
  by_cases hcan : s.scrollStatus.canScrollUp <;>
    simp [onWheel, hd, hcan, slideRunwayInPx]

/-- Witness for `c10_unknown_browser_no_scroll`: a Netscape-style user
agent, both gates open, `runwayY = 42`, wheel delta 7. -/
theorem c10_unknown_browser_no_scroll_witness :
    testIgnoreCase "chrome" "Mozilla/4.0 Netscape" = false ∧
      testIgnoreCase "firefox" "Mozilla/4.0 Netscape" = false ∧
      testIgnoreCase "safari" "Mozilla/4.0 Netscape" = false ∧
      getDelta "Mozilla/4.0 Netscape" 7 = 0 ∧
      (onWheel "Mozilla/4.0 Netscape" ⟨⟨true, true⟩, 42⟩ 7).runwayY = 42 := by
  refine ⟨by decide, by decide, by decide, ?_⟩
  exact c10_unknown_browser_no_scroll "Mozilla/4.0 Netscape" ⟨⟨true, true⟩, 42⟩ 7
    (by decide) (by decide) (by decide)

/-- C8 counterexample: nothing in `addPage` deduplicates — if the host
serves the same page twice (as can happen with the duplicate concurrent
fetches of the missing in-flight gate), the window holds two pages with
identifier 1. -/
theorem c8_no_duplicates_counterexample :
    (runMerges 15 [(false, some ⟨1, 10⟩),
        (false, some ⟨1, 10⟩)]).map PageData.id = [1, 1] ∧
      ¬ ((runMerges 15 [(false, some ⟨1, 10⟩),
        (false, some ⟨1, 10⟩)]).map PageData.id).Nodup := by
  constructor
  · rfl
  · decide

lemma addPageMerge_nodup (m : Nat) (b : Bool) (pages : List PageData)
    (pg : Option PageData) (hnd : (pages.map PageData.id).Nodup)
    (hfresh : ∀ p, pg = some p → p.id ∉ pages.map PageData.id) :
    ((addPageMerge m b pages pg).map PageData.id).Nodup := by
  cases pg with
  | none => simpa [addPageMerge] using hnd
  | some p =>
    have hp : p.id ∉ pages.map PageData.id := hfresh p rfl
    cases b with
    | true =>
      have hsub : List.Sublist ((pages.take m).map PageData.id)
          (pages.map PageData.id) :=
        (List.take_sublist m pages).map PageData.id
      have h1 : ((pages.take m).map PageData.id).Nodup := hnd.sublist hsub
      have h2 : p.id ∉ (pages.take m).map PageData.id :=
        fun hm => hp (hsub.mem hm)
      rw [List.map_take] at h1 h2
      simp [addPageMerge, lodashTake, h1, h2]
    | false =>
      have hsub : List.Sublist ((pages.drop (pages.length - m)).map PageData.id)
          (pages.map PageData.id) :=
        (List.drop_sublist _ pages).map PageData.id
      have h1 : ((pages.drop (pages.length - m)).map PageData.id).Nodup :=
        hnd.sublist hsub
      have h2 : p.id ∉ (pages.drop (pages.length - m)).map PageData.id :=
        fun hm => hp (hsub.mem hm)
      rw [List.map_drop] at h1 h2
      simp [addPageMerge, lodashTakeRight, List.nodup_append, h1, h2]

lemma runMergesFrom_nodup (m : Nat) (ops : List (Bool × Option PageData))
    (pages : List PageData) (hnd : (pages.map PageData.id).Nodup)
    (hfresh : freshIds m pages ops = true) :
    ((runMergesFrom m pages ops).map PageData.id).Nodup := by
  induction ops generalizing pages with
  | nil => simpa [runMergesFrom] using hnd
  | cons op rest ih =>
    obtain ⟨b, pg⟩ := op
    simp only [freshIds, Bool.and_eq_true] at hfresh
    have hf : ∀ p, pg = some p → p.id ∉ pages.map PageData.id := by
      intro p hpg
      subst hpg
      simpa using hfresh.1
    simp only [runMergesFrom, List.foldl_cons] at *
    exact ih _ (addPageMerge_nodup m b pages pg hnd hf) hfresh.2

/-- C8 (amended): `addPage` itself never deduplicates, so the invariant
holds only conditionally — along any merge sequence in which every page
handed over by the host has an identifier not already in the window at
that moment, every reachable window has pairwise-distinct identifiers. -/
theorem c8_no_duplicates (maxPageBuffer : Nat)
    (ops : List (Bool × Option PageData))
    (h : freshIds maxPageBuffer [] ops = true) :
    ((runMerges maxPageBuffer ops).map PageData.id).Nodup :=
  runMergesFrom_nodup maxPageBuffer ops [] (by simp) h

/-- Witness for `c8_no_duplicates`: two merges with distinct identifiers. -/
theorem c8_no_duplicates_witness :
    freshIds 2 [] [(false, some ⟨1, 10⟩), (true, some ⟨2, 20⟩)] = true ∧
      ((runMerges 2 [(false, some ⟨1, 10⟩),
        (true, some ⟨2, 20⟩)]).map PageData.id).Nodup :=
  ⟨by decide, c8_no_duplicates 2 [(false, some ⟨1, 10⟩), (true, some ⟨2, 20⟩)]
    (by decide)⟩
